import Mathlib

/-!
Verification development for the Leveling repository: a shallow embedding of
the platform-leveling system (inverse-kinematics solvers for a tripod and a
Stewart platform, the matplotlib visualizer's update logic, and the text-menu
CLI), together with theorems settling the specification's claims.

The CLI (`leveling_app/cli.py`) and the visualizer (`platform_visualizer.py`)
are embedded directly from their Python sources.  The inverse-kinematics
engine (`inverse_kinematics.py`) is imported by both but its source is not
part of the checked tree; its definitions below are modelled from the
specification document, as marked in their doc comments.
-/

/-! ## String helpers mirroring the Python built-ins used by the CLI -/

/-- Embeds Python `str.strip()`: remove leading and trailing whitespace. -/
def pyStrip (s : String) : String :=
  ⟨((s.toList.dropWhile Char.isWhitespace).reverse.dropWhile Char.isWhitespace).reverse⟩

/-- Embeds Python `str.isdigit()` (ASCII digits): nonempty and all digits. -/
def pyIsDigit (s : String) : Bool :=
  !s.toList.isEmpty && s.toList.all Char.isDigit

/-- Embeds Python `int(...)` on a string of ASCII digits. -/
def pyInt (s : String) : Nat :=
  s.toList.foldl (fun n c => 10 * n + (c.toNat - 48)) 0

/-- Substring containment on character lists: helper for Python's `in`. -/
def listContainsSub (needle : List Char) : List Char → Bool
  | [] => needle.isEmpty
  | c :: t => needle.isPrefixOf (c :: t) || listContainsSub needle t

/-- Embeds Python `needle in hay` for strings (substring containment). -/
def pyContains (needle hay : String) : Bool :=
  listContainsSub needle.toList hay.toList

/-! ## CLI menu (`leveling_app/cli.py`) -/

/-- Embeds `AVAILABLE_PLATFORMS` from `leveling_app/cli.py`. -/
def AVAILABLE_PLATFORMS : List String :=
  ["tripod", "stewart_3dof", "stewart_6dof"]

/-- Embeds `_prompt_for_platform` from `leveling_app/cli.py`.  The Python
function loops over `input()` calls; here the successive raw inputs are an
explicit list, and `none` means the input sequence was exhausted while the
loop was still asking.  Each input is stripped; an empty selection keeps the
current platform; a digit string selecting a 1-based index into
`AVAILABLE_PLATFORMS` returns that entry (`index = int(selection) - 1`,
checked by `0 <= index < len(AVAILABLE_PLATFORMS)`); anything else loops. -/
def promptForPlatform (current : String) : List String → Option String
  | [] => none
  | raw :: rest =>
    let selection := pyStrip raw
    if selection = "" then
      some current
    else if pyIsDigit selection then
      let index : Int := (pyInt selection : Int) - 1
      if hidx : 0 ≤ index ∧ index < (AVAILABLE_PLATFORMS.length : Int) then
        some (AVAILABLE_PLATFORMS.get ⟨index.toNat, by omega⟩)
      else
        promptForPlatform current rest
    else
      promptForPlatform current rest

/-! ## Inverse-kinematics engine (modelled from the spec) -/

noncomputable section

/-- Modelled from the spec: `PlatformConfig` from `inverse_kinematics.py`
(source not in the checked tree) — base footprint `length × width`,
`min_height`/`max_height` actuator reach, `actuator_stroke` travel, meters. -/
structure PlatformConfig where
  length : ℝ
  width : ℝ
  min_height : ℝ
  max_height : ℝ
  actuator_stroke : ℝ

/-- Modelled from the spec: the geometric invariants `PlatformConfig`
validates at construction (positive dimensions, `min_height <= max_height`,
positive stroke); violating them raises `ConfigError`. -/
def PlatformConfig.Valid (c : PlatformConfig) : Prop :=
  0 < c.length ∧ 0 < c.width ∧ 0 < c.min_height ∧
    c.min_height ≤ c.max_height ∧ 0 < c.actuator_stroke

/-- A 3D point/vector, components (x, y, z). -/
abbrev Vec3 : Type := ℝ × ℝ × ℝ

/-- Rotation about the body x-axis (roll). -/
def rotX (a : ℝ) (v : Vec3) : Vec3 :=
  (v.1,
   Real.cos a * v.2.1 - Real.sin a * v.2.2,
   Real.sin a * v.2.1 + Real.cos a * v.2.2)

/-- Rotation about the body y-axis (pitch). -/
def rotY (a : ℝ) (v : Vec3) : Vec3 :=
  (Real.cos a * v.1 + Real.sin a * v.2.2,
   v.2.1,
   -Real.sin a * v.1 + Real.cos a * v.2.2)

/-- Rotation about the body z-axis (yaw). -/
def rotZ (a : ℝ) (v : Vec3) : Vec3 :=
  (Real.cos a * v.1 - Real.sin a * v.2.1,
   Real.sin a * v.1 + Real.cos a * v.2.1,
   v.2.2)

/-- Modelled from the spec: `rotation_matrix(roll, pitch, yaw)` from
`inverse_kinematics.py`, represented by its action on a vector — the fixed
composition order yaw ∘ pitch ∘ roll about the body axes. -/
def rotation_matrix (roll pitch yaw : ℝ) (v : Vec3) : Vec3 :=
  rotZ yaw (rotY pitch (rotX roll v))

/-- Euclidean distance between two 3D points (the leg-length formula). -/
def dist3 (a b : Vec3) : ℝ :=
  Real.sqrt ((a.1 - b.1) ^ 2 + (a.2.1 - b.2.1) ^ 2 + (a.2.2 - b.2.2) ^ 2)

/-- Modelled from the spec: rotate a platform attachment point about the
pivot fixed at `(0, 0, h)` (with `h = min_height`). -/
def rotateAboutPivot (roll pitch yaw h : ℝ) (p : Vec3) : Vec3 :=
  rotation_matrix roll pitch yaw (p - ((0 : ℝ), (0 : ℝ), h)) + ((0 : ℝ), (0 : ℝ), h)

/-- Modelled from the spec: the Stewart DOF-mode tag (`'3DOF'` / `'6DOF'`). -/
inductive DofMode where
  | threeDof
  | sixDof
deriving DecidableEq

/-- Modelled from the spec: the closed set of solver variants selected by the
platform-type string. -/
inductive Variant where
  | tripod
  | stewart (mode : DofMode)
deriving DecidableEq

/-- Modelled from the spec: the tripod's three attachment vertices, a
triangle inscribed in the `length × width` footprint (x, y coordinates). -/
def tripodCorners (c : PlatformConfig) : List (ℝ × ℝ) :=
  [(c.length / 2, 0), (-(c.length / 2), c.width / 2), (-(c.length / 2), -(c.width / 2))]

/-- Base angle of the k-th Stewart leg in the interleaved hexagonal layout. -/
def stewartBaseAngle (k : Nat) : ℝ := (k : ℝ) * (Real.pi / 3)

/-- Platform angle of the k-th Stewart leg (interleaved against the base). -/
def stewartPlatformAngle (k : Nat) : ℝ := (k : ℝ) * (Real.pi / 3) + Real.pi / 6

/-- Modelled from the spec: `get_actuator_positions()` — the fixed
`(base point, platform point)` pairs for each variant.  Tripod: three legs,
base and platform vertices coincident except for the `min_height` offset.
Stewart: six legs in interleaved hexagonal patterns scaled by
`length`/`width`, platform plane offset by `min_height`. -/
def layoutFor : Variant → PlatformConfig → List (Vec3 × Vec3)
  | .tripod, c =>
    (tripodCorners c).map fun q => ((q.1, q.2, 0), (q.1, q.2, c.min_height))
  | .stewart _, c =>
    (List.range 6).map fun k =>
      (((c.length / 2) * Real.cos (stewartBaseAngle k),
        (c.width / 2) * Real.sin (stewartBaseAngle k), 0),
       ((c.length / 2) * Real.cos (stewartPlatformAngle k),
        (c.width / 2) * Real.sin (stewartPlatformAngle k), c.min_height))

/-- Modelled from the spec: the angles a variant feeds to the rotation
matrix — the tripod ignores yaw (`(roll, pitch, 0)`); both Stewart modes
apply the full `(roll, pitch, yaw)`. -/
def solveAngles : Variant → ℝ → ℝ → ℝ → ℝ × ℝ × ℝ
  | .tripod, roll, pitch, _ => (roll, pitch, 0)
  | .stewart _, roll, pitch, yaw => (roll, pitch, yaw)

/-- Result of a solve call: the actuator lengths and the validity flag. -/
structure IKResult where
  lengths : List ℝ
  valid : Prop

/-- Modelled from the spec: package computed lengths with the validity flag —
true iff every length lies in `[min_height, min_height + actuator_stroke]`. -/
def mkResult (c : PlatformConfig) (L : List ℝ) : IKResult :=
  ⟨L, ∀ x ∈ L, c.min_height ≤ x ∧ x ≤ c.min_height + c.actuator_stroke⟩

/-- Modelled from the spec: the shared solve routine — rotate each platform
attachment point about the pivot at `(0,0,min_height)` with the variant's
angles, take the Euclidean distance to its base point, flag validity. -/
def solveIK (v : Variant) (c : PlatformConfig) (roll pitch yaw : ℝ) : IKResult :=
  let a := solveAngles v roll pitch yaw
  mkResult c ((layoutFor v c).map fun bp =>
    dist3 bp.1 (rotateAboutPivot a.1 a.2.1 a.2.2 c.min_height bp.2))

/-- Modelled from the spec: `TripodIK.solve(roll, pitch, yaw)`. -/
def TripodIK.solve (c : PlatformConfig) (roll pitch yaw : ℝ) : IKResult :=
  solveIK .tripod c roll pitch yaw

/-- Modelled from the spec: `TripodIK.level_platform(roll, pitch)`, defined
as `solve(-roll, -pitch, 0)`. -/
def TripodIK.level_platform (c : PlatformConfig) (roll pitch : ℝ) : IKResult :=
  TripodIK.solve c (-roll) (-pitch) 0

/-- Modelled from the spec: `StewartPlatformIK.solve(roll, pitch, yaw)` —
the full rotation matrix is applied in both DOF modes. -/
def StewartPlatformIK.solve (c : PlatformConfig) (m : DofMode)
    (roll pitch yaw : ℝ) : IKResult :=
  solveIK (.stewart m) c roll pitch yaw

/-- Modelled from the spec: `StewartPlatformIK.level_platform` — corrective
orientation `(-roll, -pitch, -yaw)` in 6DOF mode, `(-roll, -pitch, 0)` in
3DOF mode, delegated to `solve`. -/
def StewartPlatformIK.level_platform (c : PlatformConfig) (m : DofMode)
    (roll pitch yaw : ℝ) : IKResult :=
  match m with
  | .sixDof => StewartPlatformIK.solve c m (-roll) (-pitch) (-yaw)
  | .threeDof => StewartPlatformIK.solve c m (-roll) (-pitch) 0

/-- Modelled from the spec: a constructed solver instance — the variant, the
shared read-only config, and the attachment layout computed once at
construction and cached. -/
structure SolverInstance where
  variant : Variant
  config : PlatformConfig
  attachments : List (Vec3 × Vec3)

/-- Modelled from the spec: solver construction — caches the layout. -/
def mkSolverInstance (v : Variant) (c : PlatformConfig) : SolverInstance :=
  ⟨v, c, layoutFor v c⟩

/-- Modelled from the spec: one `solve` call on an instance, returning the
result together with the instance state after the call (the solver holds
only immutable state, so the state is returned unchanged). -/
def SolverInstance.solveStep (s : SolverInstance) (roll pitch yaw : ℝ) :
    IKResult × SolverInstance :=
  let a := solveAngles s.variant roll pitch yaw
  (mkResult s.config (s.attachments.map fun bp =>
    dist3 bp.1 (rotateAboutPivot a.1 a.2.1 a.2.2 s.config.min_height bp.2)), s)

/-! ## Visualizer (`platform_visualizer.py`) -/

/-- Error raised when a platform-type tag matches no known variant (the spec
names it `UnsupportedVariantError`; `PlatformVisualizer.__init__` raises it
as `ValueError("Unknown platform type: ...")`). -/
inductive UnsupportedVariantError where
  | unknownPlatformType (tag : String)
deriving DecidableEq

/-- Embeds the platform-type dispatch of `PlatformVisualizer.__init__`
(`platform_visualizer.py` lines 44–51): map the tag to a constructed solver,
or fail at configuration time on an unrecognized tag. -/
def selectSolver (platform_type : String) (c : PlatformConfig) :
    Except UnsupportedVariantError SolverInstance :=
  if platform_type = "tripod" then
    .ok (mkSolverInstance .tripod c)
  else if platform_type = "stewart_3dof" then
    .ok (mkSolverInstance (.stewart .threeDof) c)
  else if platform_type = "stewart_6dof" then
    .ok (mkSolverInstance (.stewart .sixDof) c)
  else
    .error (.unknownPlatformType platform_type)

/-- Embeds the corrective rotation chosen by
`PlatformVisualizer._draw_platform` (`platform_visualizer.py` lines
131–141): normally the rotation for the displayed orientation; when leveling
is enabled, the rotation for `(-roll, -pitch, -yaw if 'stewart' in
self.platform_type else 0)` (the `hasattr(self, 'platform_type')` conjunct
is always true since `__init__` sets the attribute). -/
def drawPlatformRotation (platform_type : String) (leveling_enabled : Bool)
    (roll pitch yaw : ℝ) : Vec3 → Vec3 :=
  let R := rotation_matrix roll pitch yaw
  if leveling_enabled then
    rotation_matrix (-roll) (-pitch)
      (if pyContains "stewart" platform_type then -yaw else 0)
  else R

/-- An orientation sample from the IMU streamer, in degrees. -/
structure IMUData where
  roll : ℝ
  pitch : ℝ
  yaw : ℝ

/-- Embeds `np.deg2rad`: degrees to radians. -/
def deg2rad (d : ℝ) : ℝ := d * (Real.pi / 180)

/-- The solver invocation an animation frame performs: which method is
called and with which angle arguments (already in radians). -/
inductive SolverCall where
  | solve (roll pitch yaw : ℝ)
  | levelTripod (roll pitch : ℝ)
  | levelStewart (roll pitch yaw : ℝ)

/-- The angle arguments of a solver invocation. -/
def SolverCall.angles : SolverCall → List ℝ
  | .solve r p y => [r, p, y]
  | .levelTripod r p => [r, p]
  | .levelStewart r p y => [r, p, y]

/-- What one animation frame draws: the solver call it makes and the
orientation it displays. -/
structure AnimationFrame where
  call : SolverCall
  display : ℝ × ℝ × ℝ

/-- Embeds `PlatformVisualizer._animation_update` (`platform_visualizer.py`
lines 320–369): fetch the latest IMU sample; if present, convert its angles
from degrees to radians and call `level_platform` (leveling enabled, display
zero orientation) or `solve` (leveling disabled, display the measured
orientation); if absent, call `solve(0, 0, 0)` and display zero orientation
(the Python duplicates that call across the tripod/non-tripod branches). -/
def animationUpdate (platform_type : String) (leveling_enabled : Bool)
    (imu_data : Option IMUData) : AnimationFrame :=
  match imu_data with
  | some d =>
    let roll_rad := deg2rad d.roll
    let pitch_rad := deg2rad d.pitch
    let yaw_rad := deg2rad d.yaw
    if leveling_enabled then
      ⟨if platform_type = "tripod" then
         .levelTripod roll_rad pitch_rad
       else
         .levelStewart roll_rad pitch_rad yaw_rad,
       (0, 0, 0)⟩
    else
      ⟨if platform_type = "tripod" then
         .solve roll_rad pitch_rad 0
       else
         .solve roll_rad pitch_rad yaw_rad,
       (roll_rad, pitch_rad, yaw_rad)⟩
  | none =>
    ⟨if platform_type = "tripod" then .solve 0 0 0 else .solve 0 0 0,
     (0, 0, 0)⟩

/-- The default configuration built by `PlatformVisualizer.__init__` when
none is supplied (a 4'×6' platform). -/
def defaultConfig : PlatformConfig :=
  ⟨1.83, 1.22, 0.3, 0.7, 0.4⟩

end

/-! ## Helper lemmas -/

theorem rotation_matrix_zero (v : Vec3) : rotation_matrix 0 0 0 v = v := by
  obtain ⟨x, y, z⟩ := v
  simp [rotation_matrix, rotX, rotY, rotZ]

theorem rotateAboutPivot_zero (h : ℝ) (p : Vec3) :
    rotateAboutPivot 0 0 0 h p = p := by
  simp [rotateAboutPivot, rotation_matrix_zero]

theorem dist3_vertical (x y h : ℝ) (hh : 0 ≤ h) :
    dist3 (x, y, 0) (x, y, h) = h := by
  have hsum : (x - x) ^ 2 + (y - y) ^ 2 + ((0 : ℝ) - h) ^ 2 = h ^ 2 := by ring
  simp only [dist3]
  rw [hsum]
  exact Real.sqrt_sq hh

theorem solveIK_valid_iff (v : Variant) (c : PlatformConfig) (roll pitch yaw : ℝ) :
    (solveIK v c roll pitch yaw).valid ↔
      ∀ x ∈ (solveIK v c roll pitch yaw).lengths,
        c.min_height ≤ x ∧ x ≤ c.min_height + c.actuator_stroke :=
  Iff.rfl

/-! ## Claim theorems -/

/-- Claim C1: for every valid `PlatformConfig`, `tripod.level_platform(0, 0)`
returns lengths exactly `[min_height, min_height, min_height]` (all three
legs at the nominal retracted position) together with `valid = True`. -/
theorem tripod_level_zero_tilt (c : PlatformConfig) (hc : c.Valid) :
    (TripodIK.level_platform c 0 0).lengths =
      [c.min_height, c.min_height, c.min_height] ∧
    (TripodIK.level_platform c 0 0).valid := by
  obtain ⟨-, -, hmin, -, hstroke⟩ := hc
  have hL : (TripodIK.level_platform c 0 0).lengths =
      [c.min_height, c.min_height, c.min_height] := by
    simp only [TripodIK.level_platform, TripodIK.solve, neg_zero, solveIK,
      solveAngles, layoutFor, tripodCorners, mkResult, List.map_cons,
      List.map_nil, rotateAboutPivot_zero]
    rw [dist3_vertical _ _ _ hmin.le, dist3_vertical _ _ _ hmin.le,
      dist3_vertical _ _ _ hmin.le]
  refine ⟨hL, ?_⟩
  show ∀ x ∈ (TripodIK.level_platform c 0 0).lengths,
      c.min_height ≤ x ∧ x ≤ c.min_height + c.actuator_stroke
  rw [hL]
  intro x hx
  simp only [List.mem_cons, List.not_mem_nil, or_false] at hx
  rcases hx with rfl | rfl | rfl <;>
    exact ⟨le_refl _, le_add_of_nonneg_right hstroke.le⟩

theorem tripod_level_zero_tilt_witness :
    defaultConfig.Valid ∧
    ((TripodIK.level_platform defaultConfig 0 0).lengths =
       [defaultConfig.min_height, defaultConfig.min_height, defaultConfig.min_height] ∧
     (TripodIK.level_platform defaultConfig 0 0).valid) :=
  ⟨by norm_num [PlatformConfig.Valid, defaultConfig],
   tripod_level_zero_tilt defaultConfig
     (by norm_num [PlatformConfig.Valid, defaultConfig])⟩

/-- Claim C2: leveling equals solving the negated orientation —
`tripod.level_platform(r, p) == tripod.solve(-r, -p, 0)`,
`stewart_6dof.level_platform(r, p, y) == stewart_6dof.solve(-r, -p, -y)`,
and in 3DOF mode `stewart.level_platform` uses `(-r, -p, 0)`. -/
theorem level_platform_solve_consistency (c : PlatformConfig) (roll pitch yaw : ℝ) :
    TripodIK.level_platform c roll pitch = TripodIK.solve c (-roll) (-pitch) 0 ∧
    StewartPlatformIK.level_platform c .sixDof roll pitch yaw =
      StewartPlatformIK.solve c .sixDof (-roll) (-pitch) (-yaw) ∧
    StewartPlatformIK.level_platform c .threeDof roll pitch yaw =
      StewartPlatformIK.solve c .threeDof (-roll) (-pitch) 0 :=
  ⟨rfl, rfl, rfl⟩

/-- Claim C3: `solve` and `level_platform` are total (the embedding returns a
result for every orientation, never an exception), and the returned validity
flag holds if and only if every returned length lies in
`[min_height, min_height + actuator_stroke]`. -/
theorem solve_valid_iff_lengths_in_range (c : PlatformConfig) (m : DofMode)
    (roll pitch yaw : ℝ) :
    ((TripodIK.solve c roll pitch yaw).valid ↔
      ∀ x ∈ (TripodIK.solve c roll pitch yaw).lengths,
        x ∈ Set.Icc c.min_height (c.min_height + c.actuator_stroke)) ∧
    ((TripodIK.level_platform c roll pitch).valid ↔
      ∀ x ∈ (TripodIK.level_platform c roll pitch).lengths,
        x ∈ Set.Icc c.min_height (c.min_height + c.actuator_stroke)) ∧
    ((StewartPlatformIK.solve c m roll pitch yaw).valid ↔
      ∀ x ∈ (StewartPlatformIK.solve c m roll pitch yaw).lengths,
        x ∈ Set.Icc c.min_height (c.min_height + c.actuator_stroke)) ∧
    ((StewartPlatformIK.level_platform c m roll pitch yaw).valid ↔
      ∀ x ∈ (StewartPlatformIK.level_platform c m roll pitch yaw).lengths,
        x ∈ Set.Icc c.min_height (c.min_height + c.actuator_stroke)) := by
  cases m <;>
    exact ⟨by simp only [Set.mem_Icc]; exact Iff.rfl,
           by simp only [Set.mem_Icc]; exact Iff.rfl,
           by simp only [Set.mem_Icc]; exact Iff.rfl,
           by simp only [Set.mem_Icc]; exact Iff.rfl⟩

/-- Claim C4: the tripod solver is yaw-invariant — for any two yaw values,
`tripod.solve(r, p, y1)` returns exactly the same lengths and validity flag
as `tripod.solve(r, p, y2)`. -/
theorem tripod_solve_yaw_invariant (c : PlatformConfig) (roll pitch y1 y2 : ℝ) :
    TripodIK.solve c roll pitch y1 = TripodIK.solve c roll pitch y2 :=
  rfl

/-- Claim C5: the solver is a pure function of config, attachment layout,
and orientation — a second `solve` call on the instance state left by a
first call with identical arguments returns an identical result, and the
call leaves the instance state unchanged. -/
theorem solver_purity_determinism (s : SolverInstance) (roll pitch yaw : ℝ) :
    ((s.solveStep roll pitch yaw).2.solveStep roll pitch yaw).1 =
      (s.solveStep roll pitch yaw).1 ∧
    (s.solveStep roll pitch yaw).2 = s :=
  ⟨rfl, rfl⟩

/-- Claim C6: in the renderer's leveling display path, the corrective
rotation matrix is built from `(-roll, -pitch, -yaw)` exactly when the
platform-type string contains the substring `"stewart"`, and from
`(-roll, -pitch, 0)` otherwise; both Stewart tags contain the substring and
the tripod tag does not. -/
theorem draw_platform_leveling_yaw_negation (roll pitch yaw : ℝ) (pt : String) :
    (pyContains "stewart" pt = true →
      drawPlatformRotation pt true roll pitch yaw =
        rotation_matrix (-roll) (-pitch) (-yaw)) ∧
    (pyContains "stewart" pt = false →
      drawPlatformRotation pt true roll pitch yaw =
        rotation_matrix (-roll) (-pitch) 0) ∧
    pyContains "stewart" "stewart_3dof" = true ∧
    pyContains "stewart" "stewart_6dof" = true ∧
    pyContains "stewart" "tripod" = false :=
  ⟨fun h => by simp [drawPlatformRotation, h],
   fun h => by simp [drawPlatformRotation, h],
   by decide, by decide, by decide⟩

theorem draw_platform_leveling_yaw_negation_witness :
    pyContains "stewart" "stewart_6dof" = true ∧
    drawPlatformRotation "stewart_6dof" true 1 2 3 =
      rotation_matrix (-1) (-2) (-3) :=
  ⟨by decide,
   (draw_platform_leveling_yaw_negation 1 2 3 "stewart_6dof").1 (by decide)⟩

/-- Claim C7: constructing a solver with a platform-type tag outside the
known set {tripod, stewart_3dof, stewart_6dof} fails at configuration time
with the unsupported-variant error, before any solve or level_platform call
exists to be made. -/
theorem select_solver_unknown_tag_errors (tag : String) (c : PlatformConfig)
    (h : tag ∉ (["tripod", "stewart_3dof", "stewart_6dof"] : List String)) :
    selectSolver tag c = .error (.unknownPlatformType tag) := by
  simp only [List.mem_cons, List.not_mem_nil, or_false, not_or] at h
  obtain ⟨h1, h2, h3⟩ := h
  simp [selectSolver, h1, h2, h3]

theorem select_solver_unknown_tag_errors_witness :
    "hexapod" ∉ (["tripod", "stewart_3dof", "stewart_6dof"] : List String) ∧
    selectSolver "hexapod" defaultConfig =
      Except.error (.unknownPlatformType "hexapod") :=
  ⟨by decide,
   select_solver_unknown_tag_errors "hexapod" defaultConfig (by decide)⟩

/-- Claim C8: when an orientation sample (in degrees) is present, every
angle argument the animation update passes to the solver is the
degrees-to-radians conversion of one of the sample's components (or the
constant 0 radians the tripod branch passes for yaw) — the solver is only
ever invoked with radian angles. -/
theorem animation_update_radians (pt : String) (flag : Bool) (d : IMUData)
    (a : ℝ) (ha : a ∈ (animationUpdate pt flag (some d)).call.angles) :
    a = deg2rad d.roll ∨ a = deg2rad d.pitch ∨ a = deg2rad d.yaw ∨ a = 0 := by
  cases flag <;> by_cases hpt : pt = "tripod" <;>
    simp [animationUpdate, hpt, SolverCall.angles] at ha <;>
    tauto

theorem animation_update_radians_witness :
    deg2rad 5 ∈ (animationUpdate "tripod" false (some ⟨5, 6, 7⟩)).call.angles ∧
    (deg2rad 5 = deg2rad (IMUData.mk 5 6 7).roll ∨
     deg2rad 5 = deg2rad (IMUData.mk 5 6 7).pitch ∨
     deg2rad 5 = deg2rad (IMUData.mk 5 6 7).yaw ∨ deg2rad 5 = 0) :=
  have hmem : deg2rad 5 ∈ (animationUpdate "tripod" false (some ⟨5, 6, 7⟩)).call.angles := by
    rw [show (animationUpdate "tripod" false (some ⟨5, 6, 7⟩)).call.angles =
        [deg2rad 5, deg2rad 6, 0] from rfl]
    exact List.mem_cons_self _ _
  ⟨hmem, animation_update_radians "tripod" false ⟨5, 6, 7⟩ (deg2rad 5) hmem⟩

/-- Claim C9: when the orientation source has produced no sample yet, the
animation update computes actuator lengths via `solve(0, 0, 0)` and draws
the platform at zero orientation, for every platform type and either
leveling state, without skipping the frame. -/
theorem animation_update_no_sample (pt : String) (flag : Bool) :
    animationUpdate pt flag none = ⟨.solve 0 0 0, (0, 0, 0)⟩ := by
  simp [animationUpdate]

/-- Claim C10: for every input sequence, `_prompt_for_platform` returns
either the current value or an element of `AVAILABLE_PLATFORMS`, never any
other string. -/
theorem prompt_for_platform_membership (current : String) (inputs : List String)
    (s : String) (h : promptForPlatform current inputs = some s) :
    s = current ∨ s ∈ AVAILABLE_PLATFORMS := by
  induction inputs with
  | nil => simp [promptForPlatform] at h
  | cons raw rest ih =>
    simp only [promptForPlatform] at h
    split at h
    · exact Or.inl (Option.some.inj h).symm
    · split at h
      · split at h
        · exact Or.inr ((Option.some.inj h) ▸ List.get_mem _ _ _)
        · exact ih h
      · exact ih h

theorem prompt_for_platform_membership_witness :
    promptForPlatform "tripod" ["2"] = some "stewart_3dof" ∧
    ("stewart_3dof" = "tripod" ∨ "stewart_3dof" ∈ AVAILABLE_PLATFORMS) :=
  ⟨by decide,
   prompt_for_platform_membership "tripod" ["2"] "stewart_3dof" (by decide)⟩

